import Mathlib

/-
Verification development for the echolog console-logging layer
(src/echolog/echolog.py).  The Python module is shallowly embedded below:
pure computations become Lean functions, and the process-wide mutable
logging state (the `logging` module namespace plus the identified logger's
handler list and threshold) becomes an explicit state record threaded
through each operation.  A raised Python exception is modelled by an
explicit error result that carries the shared state at the moment the
exception propagates, since Python mutates that state in place.
-/

namespace EchoLog

/-! ## Severity constants

Numeric severity values of the underlying `logging` framework (an external
collaborator with fixed well-known values) and the module's own custom
level, `ECHO_LEVEL = logging.DEBUG + 5` (echolog.py line 35). -/

def logging_DEBUG : Int := 10

def logging_INFO : Int := 20

def logging_WARNING : Int := 30

def logging_ERROR : Int := 40

def logging_CRITICAL : Int := 50

def logging_NOTSET : Int := 0

/-- Constant from echolog.py line 35: `ECHO_LEVEL = logging.DEBUG + 5`. -/
def ECHO_LEVEL : Int := logging_DEBUG + 5

/-! ## ANSI color codes

The color dictionary `C` (echolog.py lines 36-45): `C[color] = ESC 3i;1m`
for the i-th color in [black, red, green, yellow, blue, magenta, cyan,
white, gray], `C[bg_color] = ESC 4i;1m`, and `C.reset = ESC 0m`. -/

def C_r : String := "\x1b[31;1m"

def C_g : String := "\x1b[32;1m"

def C_y : String := "\x1b[33;1m"

def C_b : String := "\x1b[34;1m"

def C_m : String := "\x1b[35;1m"

def C_c : String := "\x1b[36;1m"

def C_gy : String := "\x1b[38;1m"

def C_bg_r : String := "\x1b[41;1m"

def C_reset : String := "\x1b[0m"

/-! ## The echo call-site parse (echolog.py lines 48-76) -/

/-- Models `re.search(r"\((.*)\)", line).group(1)` (echolog.py line 67).
The greedy pattern pairs the first opening parenthesis of the line with
the last closing parenthesis after it; group 1 is the text strictly
between them.  `none` models the case where no such pair exists, in which
case the Python code raises (`.group` on `None`): the introspection
failure propagates. -/
def extract_paren_group (line : String) : Option String :=
  let cs := line.toList
  match cs.findIdx? (fun c => c == '(') with
  | none => none
  | some i =>
    let after := cs.drop (i + 1)
    match after.reverse.findIdx? (fun c => c == ')') with
    | none => none
    | some k => some (String.mk (after.take (after.length - 1 - k)))

/-- Models Python `s.split(", ")` (echolog.py line 68): cut the character
sequence at every non-overlapping occurrence of comma-space, scanning left
to right.  `cur` accumulates the current token in reverse. -/
def split_commaspace : List Char → List Char → List String
  | [], cur => [String.mk cur.reverse]
  | ',' :: ' ' :: rest, cur => String.mk cur.reverse :: split_commaspace rest []
  | c :: rest, cur => split_commaspace rest (c :: cur)

/-- Models the expression-name/value pairing computed by `echo` (echolog.py
lines 67-75): split the parenthesized call text on `", "`, then, when
keyword arguments were supplied, truncate the name list to
`len(kwargs) + 1` entries, append each keyword's key as its own name and
its value positionally, and finally `zip` names with values (shortest
wins).  `args` is the tuple of positional values, `kwargs` the keyword
items in insertion order. -/
def echo_pairs {α : Type} (line : String) (args : List α)
    (kwargs : List (String × α)) : Option (List (String × α)) :=
  match extract_paren_group line with
  | none => none
  | some r =>
    let vnames := split_commaspace r.toList []
    let n_kw := kwargs.length
    let vnames := if n_kw > 0 then vnames.take (n_kw + 1) ++ kwargs.map Prod.fst
                  else vnames
    let args2 := args ++ kwargs.map Prod.snd
    some (vnames.zip args2)

example : extract_paren_group "echo(a, b)" = some "a, b" := by decide

example : echo_pairs "echo(a, b)" [1, 2] [] = some [("a", 1), ("b", 2)] := by decide

example (va vb : Nat) : echo_pairs "echo(a, b)" [va, vb] [] = some [("a", va), ("b", vb)] := rfl

/-! ## The shared logging-module namespace

The parts of the `logging` module's process-wide state that echolog reads
and mutates: the binding of the attribute name `ECHO` (set by
`__add_logging_level`, tested by `hasattr`), the bindings of the method
name `echo` on the module and on the logger class, and the
level-number-to-display-name table `logging._levelToName` (read and
updated through `logging.addLevelName`). -/

structure LoggingNS where
  echoAttr : Option Int
  echoMethodModule : Bool
  echoMethodClass : Bool
  levelToName : List (Int × String)
deriving DecidableEq, Repr

/-- Initial contents of `logging._levelToName` in the standard framework,
in its insertion order (descending severity). -/
def stdLevelToName : List (Int × String) :=
  [(logging_CRITICAL, "CRITICAL"), (logging_ERROR, "ERROR"),
   (logging_WARNING, "WARNING"), (logging_INFO, "INFO"),
   (logging_DEBUG, "DEBUG"), (logging_NOTSET, "NOTSET")]

/-- State of the `logging` namespace in a fresh process, before echolog has
registered anything. -/
def freshNS : LoggingNS :=
  { echoAttr := none, echoMethodModule := false, echoMethodClass := false,
    levelToName := stdLevelToName }

/-- Models `logging.addLevelName(lvl, name)`: update the entry for `lvl` in
`_levelToName` if present, otherwise append a new entry (Python dict
update-or-insert). -/
def addLevelName (lvl : Int) (name : String) (t : List (Int × String)) :
    List (Int × String) :=
  if t.any (fun p => p.1 == lvl) then
    t.map (fun p => if p.1 == lvl then (lvl, name) else p)
  else t ++ [(lvl, name)]

/-- Result of a step that either returns the updated namespace (and the
value of `logging.ECHO`), or raises; the error constructor carries the
namespace at the moment the exception propagates. -/
inductive EchoLevelResult where
  | ok (ns : LoggingNS) (value : Int)
  | error (msg : String) (ns : LoggingNS)
deriving DecidableEq, Repr

/-- Models `__add_logging_level('ECHO', levelNum)` (echolog.py lines
252-299), specialised to its only call site, where `levelName = 'ECHO'`
and `methodName = levelName.lower() = 'echo'`: raise `AttributeError` if
the level name or the method name is already bound, otherwise register
the level name in `_levelToName`, bind `logging.ECHO = levelNum`, and
install the convenience method on the logger class and the module.  The
three `hasattr` guards run before any mutation, so the error case leaves
the namespace unchanged.  The `ok` payload is the newly bound value. -/
def add_logging_level_ECHO (levelNum : Int) (ns : LoggingNS) : EchoLevelResult :=
  if ns.echoAttr.isSome then .error "ECHO already defined in logging module" ns
  else if ns.echoMethodModule then .error "echo already defined in logging module" ns
  else if ns.echoMethodClass then .error "echo already defined in logger class" ns
  else
    .ok { echoAttr := some levelNum, echoMethodModule := true,
          echoMethodClass := true,
          levelToName := addLevelName levelNum "ECHO" ns.levelToName } levelNum

/-- Models `__get_echo_level()` (echolog.py lines 231-234): when the
attribute name `ECHO` is already bound on the logging module — by this
registry's own earlier run or by anything else — do nothing and return
the bound value; only when it is unbound run `__add_logging_level('ECHO',
ECHO_LEVEL)` and return `logging.ECHO`. -/
def get_echo_level (ns : LoggingNS) : EchoLevelResult :=
  match ns.echoAttr with
  | some v => .ok ns v
  | none =>
    match add_logging_level_ECHO ECHO_LEVEL ns with
    | .ok ns2 _ => .ok ns2 ECHO_LEVEL
    | .error m ns2 => .error m ns2

/-! ## Tag tables and level renaming (echolog.py lines 120-176, 239-250) -/

/-- The `tags.short` table (echolog.py lines 123-130), in source order. -/
def shortTags : List (String × String) :=
  [("DEBUG", "/"), ("INFO", "-"), ("ECHO", ">"), ("WARNING", "!"),
   ("ERROR", "x"), ("CRITICAL", "X"), ("NOTSET", "?")]

/-- The `tags.long` table (echolog.py lines 132-139), in source order. -/
def longTags : List (String × String) :=
  [("DEBUG", "DEBUG"), ("INFO", "INFO"), ("ECHO", "ECHO"),
   ("WARNING", "WARN"), ("ERROR", "ERROR"), ("CRITICAL", "FATAL"),
   ("NOTSET", "UNSET")]

/-- Tag transformation of the `fmt == 'long'` branch (echolog.py lines
166-169): prepend an opening bracket, and prepend a further space when
the original tag has length 4. -/
def padLong (tag : String) : String :=
  if tag.length == 4 then " " ++ ("[" ++ tag) else "[" ++ tag

/-- Tag transformation of the `fmt == 'long-time'` branch (echolog.py
lines 172-174): prepend a space exactly when the original tag has
length 4. -/
def padLongTime (tag : String) : String :=
  if tag.length == 4 then " " ++ tag else tag

/-- The `values` utility dict (echolog.py lines 142-151): level name to
numeric value, in source order.  `values.ECHO` reads `logging.ECHO`,
whose current binding is passed in as `echoVal`. -/
def valsList (echoVal : Int) : List (String × Int) :=
  [("DEBUG", logging_DEBUG), ("INFO", logging_INFO), ("ECHO", echoVal),
   ("WARNING", logging_WARNING), ("ERROR", logging_ERROR),
   ("CRITICAL", logging_CRITICAL), ("NOTSET", logging_NOTSET)]

/-- The body of the loop in `__rename_logging_level_names` (echolog.py
lines 242-247) for one numeric level `lvl`: scan `vals` for keys whose
value equals `lvl` (the last match wins), look that key up in `tags`;
when no `vals` entry matches, keep the existing display name. -/
def renamed_tag (tags : List (String × String)) (echoVal : Int) (lvl : Int)
    (existing : String) : String :=
  match ((valsList echoVal).filter (fun p => p.2 == lvl)).getLast? with
  | some kv =>
    match tags.find? (fun t => t.1 == kv.1) with
    | some t => t.2
    | none => existing
  | none => existing

/-- Models `__rename_logging_level_names(tags, values)` (echolog.py lines
239-250): for every level currently in `logging._levelToName`, rebind its
display name via `logging.addLevelName`. -/
def rename_levels (tags : List (String × String)) (echoVal : Int)
    (names : List (Int × String)) : List (Int × String) :=
  names.map (fun p => (p.1, renamed_tag tags echoVal p.1 p.2))

/-! ## The logger and `get_logger` (echolog.py lines 78-190) -/

/-- A console handler as configured by `get_logger`: its own threshold
(`ch.setLevel(level)`) and the format string of the `__CustomFormatter`
bound to it (`ch.setFormatter(formatter)`). -/
structure Handler where
  hlevel : Int
  formatter : String
deriving DecidableEq, Repr

/-- The shared state `get_logger` operates on: the logger identified by
the `id` argument (its own handler list and its own threshold `level`),
whether any ancestor logger in the naming hierarchy currently has
handlers (`ancestorHandlers`; what `Logger.hasHandlers()` consults beyond
the logger's own list — always `false` when the identified logger is the
root), and the shared `logging` namespace. -/
structure LogState where
  handlers : List Handler
  level : Int
  ancestorHandlers : Bool
  ns : LoggingNS
deriving DecidableEq, Repr

/-- Models `Logger.hasHandlers()`: the logger's own list is non-empty or
some ancestor has handlers. -/
def hasHandlers (st : LogState) : Bool :=
  !st.handlers.isEmpty || st.ancestorHandlers

/-- Result of `get_logger`: the returned logger's state, or a raised
exception together with the shared state at the moment it propagates. -/
inductive GetLoggerResult where
  | ok (st : LogState)
  | error (msg : String) (st : LogState)
deriving DecidableEq, Repr

/-- The configuration tail of `get_logger` (echolog.py lines 182-187):
create a handler at the requested threshold, bind the formatter, set the
logger's own threshold, and attach the handler. -/
def configure (st : LogState) (lvl : Int) (fmt_str : String) : LogState :=
  { st with handlers := st.handlers ++ [⟨lvl, fmt_str⟩], level := lvl }

/-- Models `get_logger(level, fmt, id)` (echolog.py lines 78-190) acting on
the logger identified by `id` (captured in `st`).  When `level` or `fmt`
is supplied, the logger's own handlers are flushed and cleared first.
When `hasHandlers()` then still holds, the logger is returned as is.
Otherwise the ECHO level is registered, defaults are filled in
(`level = logging.ECHO`, `fmt = 'short-time'`), the format-family tag
table is built (with long-family padding) and written into the shared
level-name table, and a console handler and formatter are attached.  An
unrecognized `fmt` raises `ValueError` at the end of the dispatch
chain. -/
def get_logger (level : Option Int) (fmt : Option String) (st : LogState) :
    GetLoggerResult :=
  let st := if level.isSome || fmt.isSome then { st with handlers := [] } else st
  if hasHandlers st then .ok st
  else
    match get_echo_level st.ns with
    | .error m ns2 => .error m { st with ns := ns2 }
    | .ok ns2 echoVal =>
      let st := { st with ns := ns2 }
      let lvl := level.getD echoVal
      let f := fmt.getD "short-time"
      if f == "short" || f == "short-time" then
        let st := { st with ns := { st.ns with
          levelToName := rename_levels shortTags echoVal st.ns.levelToName } }
        let fmt_str := if f == "short" then "[%(levelname)s]"
                       else "%(asctime)s.%(msecs)3d [%(levelname)s]"
        .ok (configure st lvl fmt_str)
      else if f == "long" || f == "long-time" then
        let padded := longTags.map
          (fun p => (p.1, if f == "long" then padLong p.2 else padLongTime p.2))
        let fmt_str := if f == "long" then "%(levelname)s]"
                       else "[%(asctime)s.%(msecs)3d %(levelname)s]"
        let st := { st with ns := { st.ns with
          levelToName := rename_levels padded echoVal st.ns.levelToName } }
        .ok (configure st lvl fmt_str)
      else
        .error ("Invalid format string: " ++ f ++ ".") st

/-! ## newline (echolog.py lines 193-209) -/

/-- Result of `newline`: the state after the inner `get_logger()` call
together with the number of newline characters written to stdout, or a
propagated exception. -/
inductive NewlineResult where
  | ok (st : LogState) (newlineChars : Nat)
  | error (msg : String) (st : LogState)
deriving DecidableEq, Repr

/-- Models `newline(n)` (echolog.py lines 193-209): obtain the default
logger via `get_logger()`, and when its own threshold is at or below
`logging.INFO`, execute `print(''.join(('\n',)*(n-1)))`.  The joined
string holds `max(n-1, 0)` newline characters (a negative repetition
count yields the empty tuple) and `print` appends its terminating
newline, so the call writes `max(n-1, 0) + 1` newline characters — and
nothing else — to stdout; otherwise nothing is written. -/
def newline (n : Int) (st : LogState) : NewlineResult :=
  match get_logger none none st with
  | .ok st2 =>
    .ok st2 (if st2.level ≤ logging_INFO then (n - 1).toNat + 1 else 0)
  | .error m st2 => .error m st2

/-! ## The custom formatter (echolog.py lines 212-229) -/

/-- Python `dict.get(k)` on an association list built from a dict literal;
in every use below the keys are pairwise distinct, so first-match lookup
agrees with the dict. -/
def dict_get (m : List (Int × String)) (k : Int) : Option String :=
  match m with
  | [] => none
  | (k2, v) :: rest => if k2 = k then some v else dict_get rest k

/-- The `FORMATS` dict built by `__CustomFormatter.__init__` (echolog.py
lines 216-224): one colorized template per severity key, each of the form
color-code ++ `fmt_str` ++ reset-code ++ `" %(message)s"`.  The ECHO key
is the current binding of `logging.ECHO`, passed in as `echoVal`. -/
def CustomFormatter_FORMATS (echoVal : Int) (fmt_str : String) :
    List (Int × String) :=
  [(logging_DEBUG, C_b ++ fmt_str ++ C_reset ++ " %(message)s"),
   (logging_INFO, C_g ++ fmt_str ++ C_reset ++ " %(message)s"),
   (echoVal, C_m ++ fmt_str ++ C_reset ++ " %(message)s"),
   (logging_WARNING, C_y ++ fmt_str ++ C_reset ++ " %(message)s"),
   (logging_ERROR, C_r ++ fmt_str ++ C_reset ++ " %(message)s"),
   (logging_CRITICAL, C_bg_r ++ fmt_str ++ C_reset ++ " %(message)s"),
   (logging_NOTSET, C_gy ++ fmt_str ++ C_reset ++ " %(message)s")]

/-- The template selection of `__CustomFormatter.format` (echolog.py lines
226-229): `log_fmt = self.FORMATS.get(record.levelno)` followed by
`logging.Formatter(log_fmt, "%H:%M:%S")`.  When the severity is not a key
of `FORMATS`, `dict.get` yields `None` and `logging.Formatter(None)`
falls back to the framework's default style `"%(message)s"`. -/
def CustomFormatter_selected (echoVal : Int) (fmt_str : String)
    (levelno : Int) : String :=
  match dict_get (CustomFormatter_FORMATS echoVal fmt_str) levelno with
  | some f => f
  | none => "%(message)s"

/-! ## Concrete states used in the theorems below -/

/-- The root logger of a fresh process: no handlers, own threshold
`WARNING` (the framework's root default), no ancestors. -/
def freshRoot : LogState := ⟨[], logging_WARNING, false, freshNS⟩

/-- The namespace after ECHO registration and a short-family renaming run:
the display names of all registered levels are the one-character short
tags. -/
def nsShortRenamed : LoggingNS :=
  ⟨some 15, true, true,
   [(50, "X"), (40, "x"), (30, "!"), (20, "-"), (10, "/"), (0, "?"), (15, ">")]⟩

/-- The root logger after the all-defaults run `get_logger()`: one console
handler at threshold `ECHO_LEVEL` carrying the short-time format string,
own threshold `ECHO_LEVEL`, short display names installed. -/
def stConfigured : LogState :=
  ⟨[⟨15, "%(asctime)s.%(msecs)3d [%(levelname)s]"⟩], 15, false, nsShortRenamed⟩

/-- Sanity check tying the concrete states together: the all-defaults run
on a fresh process produces exactly `stConfigured`. -/
theorem get_logger_default_run : get_logger none none freshRoot = .ok stConfigured := by
  decide

/-- Fast path of `get_logger` (echolog.py lines 100-110): with neither
`level` nor `fmt` supplied and the logger's own handler list non-empty,
the logger is returned with every part of the shared state unchanged. -/
theorem get_logger_fast_path (st : LogState) (h : st.handlers ≠ []) :
    get_logger none none st = .ok st := by
  cases hl : st.handlers with
  | nil => exact absurd hl h
  | cons a t => simp [get_logger, hasHandlers, hl]

/-! ## C1 -/

/-- C1 counterexample: the claim puts ECHO strictly between INFO and
WARNING, but registration (from a fresh process) binds
`ECHO_LEVEL = logging.DEBUG + 5 = 15`, which is not above INFO = 20:
the ladder DEBUG < INFO < ECHO < WARNING fails at its INFO < ECHO
link. -/
theorem C1_counterexample :
    get_echo_level freshNS =
      .ok ⟨some ECHO_LEVEL, true, true,
           stdLevelToName ++ [(ECHO_LEVEL, "ECHO")]⟩ ECHO_LEVEL ∧
    ECHO_LEVEL = 15 ∧
    ¬(logging_INFO < ECHO_LEVEL ∧ ECHO_LEVEL < logging_WARNING) := by
  decide

/-- C1 amended: after the custom level is registered, the severity ladder
is numerically strictly increasing in the order
DEBUG < ECHO < INFO < WARNING < ERROR < CRITICAL; ECHO's numeric value
lies strictly between DEBUG and INFO. -/
theorem C1_amended :
    get_echo_level freshNS =
      .ok ⟨some ECHO_LEVEL, true, true,
           stdLevelToName ++ [(ECHO_LEVEL, "ECHO")]⟩ ECHO_LEVEL ∧
    logging_DEBUG < ECHO_LEVEL ∧ ECHO_LEVEL < logging_INFO ∧
    logging_INFO < logging_WARNING ∧ logging_WARNING < logging_ERROR ∧
    logging_ERROR < logging_CRITICAL := by
  decide

/-! ## C2 -/

/-- C2 counterexample: an unrecognized format does raise `InvalidFormat`
(`ValueError`), but not before mutating handler state — on a configured
logger the existing handler has already been flushed and cleared when the
error propagates, so the error-time state differs from the initial one
exactly in its emptied handler list. -/
theorem C2_counterexample :
    get_logger none (some "verbose") stConfigured =
      .error "Invalid format string: verbose." { stConfigured with handlers := [] } ∧
    stConfigured.handlers ≠ [] := by
  decide

/-- C2 amended: for every format argument that is not one of the four
recognized variants, `get_logger` (reaching the configuration path, i.e.
no ancestor handlers and ECHO already registered) fails with an
`InvalidFormat` error — but only after the identified logger's own
handlers have been flushed and cleared, so the error-time handler state
is empty rather than unchanged (mutate-before-validate). -/
theorem C2_amended (st : LogState) (f : String) (e : Int)
    (ha : st.ancestorHandlers = false) (he : st.ns.echoAttr = some e)
    (h1 : f ≠ "short") (h2 : f ≠ "short-time")
    (h3 : f ≠ "long") (h4 : f ≠ "long-time") :
    get_logger none (some f) st =
      .error ("Invalid format string: " ++ f ++ ".") { st with handlers := [] } := by
  simp [get_logger, hasHandlers, ha, get_echo_level, he, h1, h2, h3, h4]

/-- C2 amended, witnessed at a concrete configured state and the concrete
unrecognized format string "json". -/
theorem C2_amended_witness :
    get_logger none (some "json") stConfigured =
      .error ("Invalid format string: " ++ "json" ++ ".")
        { stConfigured with handlers := [] } :=
  C2_amended stConfigured "json" 15 rfl rfl (by decide) (by decide) (by decide)
    (by decide)

/-! ## C3 -/

/-- C3 counterexample: for the call-site source `echo(expr, label=value)`
the expression-name list is truncated to `len(kwargs) + 1 = 2` entries
(so the keyword's source text `"label=value"` survives as a name), the
key `"label"` is appended as a third name, and the final `zip` with the
two values drops it: the trailing emitted pair is
`("label=value", value)`, not `("label", value)` as the claim states. -/
theorem C3_counterexample :
    echo_pairs "echo(expr, label=value)" [1] [("label", 2)] =
      some [("expr", 1), ("label=value", 2)] ∧
    ("label=value" : String) ≠ "label" := by
  decide

/-- C3 amended: the expression-name list is truncated to
`kwargCount + 1` entries (the number of named values plus one, not
`positionalCount + 1`), then each keyword's name is appended with its
value appended positionally; consequently for source
`echo(expr, label=value)` the trailing emitted pair's name is the source
text `"label=value"`, not the keyword `"label"` — the appended keyword
name only surfaces when there are `kwargCount + 1` positional
arguments, as in `echo(a, b, label=value)`, whose trailing pair is
`("label", value)`. -/
theorem C3_amended {α : Type} (v1 v2 : α) (a b c : α) :
    echo_pairs "echo(expr, label=value)" [v1] [("label", v2)] =
      some [("expr", v1), ("label=value", v2)] ∧
    echo_pairs "echo(a, b, label=value)" [a, b] [("label", c)] =
      some [("a", a), ("b", b), ("label", c)] :=
  ⟨rfl, rfl⟩

/-- C3 amended, witnessed at concrete runtime values. -/
theorem C3_amended_witness :
    echo_pairs "echo(expr, label=value)" [10] [("label", 20)] =
      some [("expr", 10), ("label=value", 20)] ∧
    echo_pairs "echo(a, b, label=value)" [1, 2] [("label", 3)] =
      some [("a", 1), ("b", 2), ("label", 3)] :=
  ⟨(C3_amended 10 20 1 2 3).1, (C3_amended 10 20 1 2 3).2⟩

/-! ## C4 -/

/-- C4: for every already-configured identified logger (own handlers
attached), calling `get_logger` with neither `level` nor `fmt` supplied
returns that logger unchanged — the same handlers (hence the same bound
formatters), the same threshold, and the whole shared logging state are
untouched, whatever the prior configuration (any of the four format
variants included, since the state is universally quantified). -/
theorem C4_idempotent_fast_path (st : LogState) (h : st.handlers ≠ []) :
    get_logger none none st = .ok st :=
  get_logger_fast_path st h

/-- C4, witnessed at the concrete state produced by a default
configuration run. -/
theorem C4_idempotent_fast_path_witness :
    get_logger none none stConfigured = .ok stConfigured :=
  C4_idempotent_fast_path stConfigured (by decide)

/-! ## C5 -/

/-- A configured root logger whose own threshold is exactly INFO. -/
def stInfoLevel : LogState :=
  ⟨[⟨20, "[%(levelname)s]"⟩], 20, false, nsShortRenamed⟩

/-- A configured root logger whose own threshold is WARNING, above INFO. -/
def stWarnLevel : LogState :=
  ⟨[⟨30, "[%(levelname)s]"⟩], 30, false, nsShortRenamed⟩

/-- C5 counterexample: with the default logger's threshold at INFO,
`newline(3)` executes `print('\n\n')`, writing the two joined newline
characters plus `print`'s terminating newline — three newline characters
in total, i.e. three blank lines on a console standing at column zero —
not the two blank lines the claim states. -/
theorem C5_counterexample :
    newline 3 stInfoLevel = .ok stInfoLevel 3 ∧ (3 : Nat) ≠ 2 := by
  decide

/-- C5 amended: for every integer `n` and configured default logger,
`newline(n)` writes exactly `max(n-1, 0) + 1` newline characters (the
`n-1` joined newlines plus `print`'s terminating one — so `newline(3)`
writes 3, one more than the requested separator count) if and only if
the logger's threshold is numerically at or below INFO, and writes
nothing otherwise. -/
theorem C5_amended (n : Int) (st : LogState) (h : st.handlers ≠ []) :
    (st.level ≤ logging_INFO → newline n st = .ok st ((n - 1).toNat + 1)) ∧
    (logging_INFO < st.level → newline n st = .ok st 0) := by
  have hfp : get_logger none none st = .ok st := get_logger_fast_path st h
  constructor
  · intro hle
    simp [newline, hfp, hle]
  · intro hlt
    simp [newline, hfp, if_neg (not_le.mpr hlt)]

/-- C5 amended, witnessed at threshold INFO (three newline characters
written) and at threshold WARNING (nothing written). -/
theorem C5_amended_witness :
    newline 3 stInfoLevel = .ok stInfoLevel 3 ∧
    newline 3 stWarnLevel = .ok stWarnLevel 0 :=
  ⟨(C5_amended 3 stInfoLevel (by decide)).1 (by decide),
   (C5_amended 3 stWarnLevel (by decide)).2 (by decide)⟩

/-! ## C6 -/

/-- A namespace in which the attribute name `ECHO` is bound to 999 by some
foreign code: the binding cannot be this registry's own prior
registration, which always binds `ECHO_LEVEL = 15` and installs both
convenience methods. -/
def foreignNS : LoggingNS := ⟨some 999, false, false, stdLevelToName⟩

/-- C6 counterexample: with the level name `ECHO` foreign-bound (to a
value the registry itself never binds), registration does not fail with a
`LevelConflict` error as the claim states — `__get_echo_level` sees
`hasattr(logging, 'ECHO')` succeed, silently skips registration, and
returns the foreign value. -/
theorem C6_counterexample :
    get_echo_level foreignNS = .ok foreignNS 999 ∧ (999 : Int) ≠ ECHO_LEVEL := by
  decide

/-- C6 amended: only a foreign binding of the method name `echo` (on the
logging module or on the logger class) while the level name `ECHO` is
unbound makes registration fail, with an `AttributeError` that propagates
uncaught through `get_logger` to its caller; a pre-existing binding of
the level name `ECHO` itself — foreign or not — makes registration a
silent no-op instead (see the counterexample). -/
theorem C6_amended (st : LogState) (hh : st.handlers = [])
    (ha : st.ancestorHandlers = false) (he : st.ns.echoAttr = none) :
    (st.ns.echoMethodModule = true →
      get_logger none none st = .error "echo already defined in logging module" st) ∧
    (st.ns.echoMethodModule = false → st.ns.echoMethodClass = true →
      get_logger none none st = .error "echo already defined in logger class" st) := by
  cases st with
  | mk hs lv anc ns =>
    constructor
    · intro hm
      simp_all [get_logger, hasHandlers, get_echo_level, add_logging_level_ECHO]
    · intro hm hc
      simp_all [get_logger, hasHandlers, get_echo_level, add_logging_level_ECHO]

/-- A process state where foreign code bound `logging.echo` (the method
name) while the level name `ECHO` is unbound. -/
def conflictState : LogState := ⟨[], 30, false, ⟨none, true, false, stdLevelToName⟩⟩

/-- C6 amended, witnessed at a concrete state with a foreign-bound module
method name. -/
theorem C6_amended_witness :
    get_logger none none conflictState =
      .error "echo already defined in logging module" conflictState :=
  (C6_amended conflictState rfl rfl rfl).1 rfl

/-! ## C7 -/

/-- The namespace after a `fmt='long'` configuration run: every display
name is the bracketed long tag, the four-character tags carrying one
leading space. -/
def nsLongRenamed : LoggingNS :=
  ⟨some 15, true, true,
   [(50, "[FATAL"), (40, "[ERROR"), (30, " [WARN"), (20, " [INFO"),
    (10, "[DEBUG"), (0, "[UNSET"), (15, " [ECHO")]⟩

/-- The root logger after `get_logger(level=DEBUG, fmt='long')` on a fresh
process. -/
def stLongConfigured : LogState :=
  ⟨[⟨10, "%(levelname)s]"⟩], 10, false, nsLongRenamed⟩

/-- C7: in the long-format family every tag of length 4 is left-padded
with exactly one space and every tag of length 5 is not padded, so the
padded tag field has constant width across all levels (5 characters for
'long-time'; 6 for 'long', whose transformation also bakes in the opening
bracket, the closing one living in the format string).  The padding is
applied at configuration time: a 'long' run from a fresh process installs
the already-padded tags in the shared level-name table, and the formatter
contains no padding logic of its own. -/
theorem C7_long_tag_padding (p : String × String) (hp : p ∈ longTags) :
    (p.2.length = 4 → padLong p.2 = " [" ++ p.2 ∧ padLongTime p.2 = " " ++ p.2) ∧
    (p.2.length = 5 → padLong p.2 = "[" ++ p.2 ∧ padLongTime p.2 = p.2) ∧
    (padLong p.2).length = 6 ∧ (padLongTime p.2).length = 5 ∧
    get_logger (some logging_DEBUG) (some "long") freshRoot = .ok stLongConfigured := by
  fin_cases hp <;> decide

/-- C7, witnessed at the four-character WARNING tag "WARN". -/
theorem C7_long_tag_padding_witness :
    ((("WARNING", "WARN") : String × String).2.length = 4 →
      padLong ("WARNING", "WARN").2 = " [" ++ ("WARNING", "WARN").2 ∧
      padLongTime ("WARNING", "WARN").2 = " " ++ ("WARNING", "WARN").2) ∧
    ((("WARNING", "WARN") : String × String).2.length = 5 →
      padLong ("WARNING", "WARN").2 = "[" ++ ("WARNING", "WARN").2 ∧
      padLongTime ("WARNING", "WARN").2 = ("WARNING", "WARN").2) ∧
    (padLong ("WARNING", "WARN").2).length = 6 ∧
    (padLongTime ("WARNING", "WARN").2).length = 5 ∧
    get_logger (some logging_DEBUG) (some "long") freshRoot = .ok stLongConfigured :=
  C7_long_tag_padding ("WARNING", "WARN") (by decide)

/-! ## C8 -/

/-- C8: for every pair of runtime values, a call whose call-site source
text is literally `echo(a, b)` yields exactly two emitted pairs whose
expression names are `"a"` and `"b"` in source order, paired respectively
with the first and second runtime value. -/
theorem C8_echo_two_args {α : Type} (va vb : α) :
    echo_pairs "echo(a, b)" [va, vb] [] = some [("a", va), ("b", vb)] :=
  rfl

/-- C8, witnessed at the concrete runtime values 1 and 2. -/
theorem C8_echo_two_args_witness :
    echo_pairs "echo(a, b)" [1, 2] [] = some [("a", 1), ("b", 2)] :=
  C8_echo_two_args 1 2

/-! ## C9 -/

/-- C9 counterexample: for a severity value outside the seven `FORMATS`
keys — here 25 — `dict.get` yields `None`, so the render falls back to
the framework default template `"%(message)s"`, not to the NOTSET/gray
entry as the claim states: the gray entry (with its color prefix and
trailing reset code) is keyed to severity 0 only. -/
theorem C9_counterexample :
    CustomFormatter_selected ECHO_LEVEL "[%(levelname)s]" 25 = "%(message)s" ∧
    CustomFormatter_selected ECHO_LEVEL "[%(levelname)s]" 25 ≠
      C_gy ++ "[%(levelname)s]" ++ C_reset ++ " %(message)s" := by
  decide

/-- C9 amended: for every format string and log record, the formatter's
render selects the color+template pair keyed by the record's severity
value, with one entry per severity DEBUG, INFO, ECHO, WARNING, ERROR,
CRITICAL plus a NOTSET/gray entry keyed to severity 0; each keyed
template appends a reset color code after the colored prefix, before the
message body.  For every severity value outside those seven keys the
lookup yields nothing and the framework default `"%(message)s"` (no
color, no reset) is used instead of the NOTSET entry. -/
theorem C9_amended (fmt_str : String) (lvl : Int)
    (h10 : lvl ≠ logging_DEBUG) (h20 : lvl ≠ logging_INFO)
    (h15 : lvl ≠ ECHO_LEVEL) (h30 : lvl ≠ logging_WARNING)
    (h40 : lvl ≠ logging_ERROR) (h50 : lvl ≠ logging_CRITICAL)
    (h0 : lvl ≠ logging_NOTSET) :
    CustomFormatter_selected ECHO_LEVEL fmt_str lvl = "%(message)s" ∧
    CustomFormatter_selected ECHO_LEVEL fmt_str logging_DEBUG =
      C_b ++ fmt_str ++ C_reset ++ " %(message)s" ∧
    CustomFormatter_selected ECHO_LEVEL fmt_str logging_INFO =
      C_g ++ fmt_str ++ C_reset ++ " %(message)s" ∧
    CustomFormatter_selected ECHO_LEVEL fmt_str ECHO_LEVEL =
      C_m ++ fmt_str ++ C_reset ++ " %(message)s" ∧
    CustomFormatter_selected ECHO_LEVEL fmt_str logging_WARNING =
      C_y ++ fmt_str ++ C_reset ++ " %(message)s" ∧
    CustomFormatter_selected ECHO_LEVEL fmt_str logging_ERROR =
      C_r ++ fmt_str ++ C_reset ++ " %(message)s" ∧
    CustomFormatter_selected ECHO_LEVEL fmt_str logging_CRITICAL =
      C_bg_r ++ fmt_str ++ C_reset ++ " %(message)s" ∧
    CustomFormatter_selected ECHO_LEVEL fmt_str logging_NOTSET =
      C_gy ++ fmt_str ++ C_reset ++ " %(message)s" := by
  refine ⟨?_, rfl, rfl, rfl, rfl, rfl, rfl, rfl⟩
  simp [CustomFormatter_selected, CustomFormatter_FORMATS, dict_get,
    Ne.symm h10, Ne.symm h20, Ne.symm h15, Ne.symm h30, Ne.symm h40,
    Ne.symm h50, Ne.symm h0]

/-- C9 amended, witnessed at the short format string and the unkeyed
severity 25. -/
theorem C9_amended_witness :
    CustomFormatter_selected ECHO_LEVEL "[%(levelname)s]" 25 = "%(message)s" ∧
    CustomFormatter_selected ECHO_LEVEL "[%(levelname)s]" logging_DEBUG =
      C_b ++ "[%(levelname)s]" ++ C_reset ++ " %(message)s" ∧
    CustomFormatter_selected ECHO_LEVEL "[%(levelname)s]" logging_INFO =
      C_g ++ "[%(levelname)s]" ++ C_reset ++ " %(message)s" ∧
    CustomFormatter_selected ECHO_LEVEL "[%(levelname)s]" ECHO_LEVEL =
      C_m ++ "[%(levelname)s]" ++ C_reset ++ " %(message)s" ∧
    CustomFormatter_selected ECHO_LEVEL "[%(levelname)s]" logging_WARNING =
      C_y ++ "[%(levelname)s]" ++ C_reset ++ " %(message)s" ∧
    CustomFormatter_selected ECHO_LEVEL "[%(levelname)s]" logging_ERROR =
      C_r ++ "[%(levelname)s]" ++ C_reset ++ " %(message)s" ∧
    CustomFormatter_selected ECHO_LEVEL "[%(levelname)s]" logging_CRITICAL =
      C_bg_r ++ "[%(levelname)s]" ++ C_reset ++ " %(message)s" ∧
    CustomFormatter_selected ECHO_LEVEL "[%(levelname)s]" logging_NOTSET =
      C_gy ++ "[%(levelname)s]" ++ C_reset ++ " %(message)s" :=
  C9_amended "[%(levelname)s]" 25 (by decide) (by decide) (by decide) (by decide)
    (by decide) (by decide) (by decide)

/-! ## C10 -/

/-- C10: for every identifier whose own logger has no handlers while an
ancestor does, `get_logger` with an explicit `level` or `fmt` clears the
(already empty) own handler list, sees `hasHandlers()` succeed through
the ancestor, and returns the logger with the whole state unchanged: no
handler attached, no formatter bound, and the requested threshold never
set — the explicit overrides take no effect. -/
theorem C10_ancestor_shadowing (st : LogState) (lv : Option Int)
    (f : Option String) (hh : st.handlers = [])
    (ha : st.ancestorHandlers = true)
    (hx : lv.isSome = true ∨ f.isSome = true) :
    get_logger lv f st = .ok st := by
  cases st with
  | mk hs lvl anc ns => simp_all [get_logger, hasHandlers]

/-- C10, witnessed at a fresh named logger under a configured root, with
both an explicit level and an explicit (valid) format supplied: neither
takes effect. -/
theorem C10_ancestor_shadowing_witness :
    get_logger (some logging_DEBUG) (some "long")
      (⟨[], logging_NOTSET, true, freshNS⟩ : LogState) =
      .ok ⟨[], logging_NOTSET, true, freshNS⟩ :=
  C10_ancestor_shadowing ⟨[], logging_NOTSET, true, freshNS⟩
    (some logging_DEBUG) (some "long") rfl rfl (Or.inl rfl)

end EchoLog
